import Mathlib

/-!
# Verification of the autotester multi-network orchestrator and swap engine

A shallow embedding, in Lean 4, of the parts of the `autotester` repository
that the specification's claims are about:

* `config/constants.py` — network-name normalisation and classification;
* `core/transaction_engine.py` — operation weights, the scheduler cycle
  (`execute_operation_cycle`, `run_single_operation`) and its statistics;
* `services/swap_service.py` — token reads (`get_token_balance`,
  `check_allowance`), approvals (`approve_token`), amount selection
  (the nested `choose_amount` of `_execute_pharos_swap` and the nested
  `_pick_amount` of `_execute_opn_swap`), Arc Curve route construction
  (`_build_arc_route`, `_get_arc_route_templates`) and the control flow of
  `_execute_arc_swap` with its Universal/Curve fallback chain and reroll.

Python floats are idealised as rationals (`ℚ`); Python `round(x, n)` is
modelled as decimal rounding to the nearest multiple of `10^(-n)` with ties
to even (CPython's documented behaviour); Python `int(x)` is truncation
toward zero.  Machine integers are unbounded in Python, so `ℤ`/`ℕ` are used
directly.  Exceptions are modelled explicitly: a value that Python code can
raise out of is an `Except`/`PyResult` value, and `try/except` blocks are
translated into the corresponding handlers.  Random draws (`random.uniform`,
`random.choice`, `random.random`) are passed in as explicit parameters, and
on-chain interactions (receipts, balance reads) as explicit oracle inputs.
-/

/-! ## Common: addresses, Python primitives -/

/-- Ethereum-style addresses are kept as strings, as in the Python source. -/
abbrev Addr := String

/-- The zero-address sentinel used throughout `swap_service.py`. -/
def zero_address : Addr := "0x0000000000000000000000000000000000000000"

/-- Python `int(x)` on a float/decimal value: truncation toward zero. -/
def pyInt (x : ℚ) : ℤ := if 0 ≤ x then ⌊x⌋ else -⌊-x⌋

/-- Python's `round` on an exact value: nearest integer, ties to even
(banker's rounding), per the CPython documentation of `round`. -/
def roundHalfEven (y : ℚ) : ℤ :=
  let f := ⌊y⌋
  let frac := y - f
  if frac < 1/2 then f
  else if 1/2 < frac then f + 1
  else if f % 2 = 0 then f else f + 1

/-- Python `round(x, digits)`: round to the nearest multiple of
`10^(-digits)`, ties to even. -/
def roundTo (x : ℚ) (digits : ℕ) : ℚ :=
  (roundHalfEven (x * 10 ^ digits) : ℚ) / 10 ^ digits

/-- Number of fractional decimal digits of a precision step, as computed in
`_execute_pharos_swap.choose_amount` by formatting the step with 10 decimal
places and stripping trailing zeros: the least `d ≤ 10` such that
`q * 10^d` is an integer. -/
def decimalDigits (q : ℚ) : ℕ :=
  ((List.range 11).find? (fun d => (q * 10 ^ d).den = 1)).getD 10

/-- Whether `needle` starts `hay` (over characters). -/
def listLeads : List Char → List Char → Bool
  | [], _ => true
  | _ :: _, [] => false
  | a :: as, b :: bs => a = b && listLeads as bs

/-- Whether `needle` occurs contiguously in `hay` (over characters). -/
def listHas (n : List Char) : List Char → Bool
  | [] => n.isEmpty
  | b :: bs => listLeads n (b :: bs) || listHas n bs

/-- Python's `needle in hay` substring test. -/
def pyIn (needle hay : String) : Bool := listHas needle.toList hay.toList

/-- ASCII lower-casing of one character (`str.lower` on the network names
used here, which are ASCII). -/
def asciiLower (c : Char) : Char :=
  if 'A' ≤ c && c ≤ 'Z' then Char.ofNat (c.toNat + 32) else c

/-- Python `str.lower()` (ASCII range). -/
def pyLower (s : String) : String := ⟨s.toList.map asciiLower⟩

/-- The whitespace characters stripped by Python `str.strip()` (ASCII). -/
def isPySpace (c : Char) : Bool :=
  c = ' ' || c = '\t' || c = '\n' || c = '\r' || c = '\x0b' || c = '\x0c'

/-- Python `str.strip()`. -/
def pyStrip (s : String) : String :=
  ⟨((s.toList.dropWhile isPySpace).reverse.dropWhile isPySpace).reverse⟩

/-- Lookup in an association list with a default, as Python `dict.get(k, d)`. -/
def lookupD (m : List (String × ℤ)) (k : String) (d : ℤ) : ℤ :=
  ((m.lookup k).getD d)

/-! ## `config/constants.py` -/

/-- `normalize_network_name` from `config/constants.py`: lower-case, strip,
then substring-match the known network families, returning the original
name when nothing matches. -/
def normalize_network_name (network_name : String) : String :=
  if network_name = "" then ""
  else
    let normalized := pyStrip (pyLower network_name)
    if pyIn "pharos" normalized || pyIn "atlantic" normalized then "Pharos Atlantic"
    else if pyIn "rise" normalized then "Rise Testnet"
    else if pyIn "opn" normalized || pyIn "iopn" normalized then "OPN Testnet"
    else if pyIn "arc" normalized then "Arc Testnet"
    else network_name

/-- `is_pharos_network` from `config/constants.py`. -/
def is_pharos_network (n : String) : Bool :=
  normalize_network_name n = "Pharos Atlantic"

/-- `is_rise_network` from `config/constants.py`. -/
def is_rise_network (n : String) : Bool :=
  normalize_network_name n = "Rise Testnet"

/-- `is_opn_network` from `config/constants.py`. -/
def is_opn_network (n : String) : Bool :=
  normalize_network_name n = "OPN Testnet"

/-- `is_arc_network` from `config/constants.py`. -/
def is_arc_network (n : String) : Bool :=
  normalize_network_name n = "Arc Testnet"

/-! ## `core/transaction_engine.py`: operation weights -/

/-- The weight table over the four action kinds
(`TransactionEngine.operation_weights`). -/
structure OperationWeights where
  transfer : ℕ
  swap : ℕ
  subscribe_stake : ℕ
  lend_borrow : ℕ
deriving DecidableEq, Repr

/-- `TransactionEngine.set_network_operation_weights`: the table installed
for a given network name (the method mutates `self.operation_weights`;
here it returns the installed table). -/
def set_network_operation_weights (network_name : String) : OperationWeights :=
  let normalized := normalize_network_name network_name
  if is_pharos_network normalized then ⟨0, 0, 30, 70⟩
  else if is_rise_network normalized then ⟨100, 0, 0, 0⟩
  else if is_opn_network normalized then ⟨20, 80, 0, 0⟩
  else if is_arc_network normalized then ⟨20, 80, 0, 0⟩
  else ⟨50, 30, 20, 0⟩

/-! ## `core/transaction_engine.py`: scheduler cycle and statistics

The engine's mutable state is reduced to what the cycle touches:
`real_time_stats` (only the three counters the claims are about),
`wallet_stats` (an association list, as the Python dict), and
`operation_weights`.  A Python computation that can raise is a
`PyResult`; dictionary subscripting (`self.wallet_stats[name]`) raises
`KeyError` when the key is absent, and the `try/except` of the source is
translated into the corresponding handler, including the handler's own
possible `KeyError`. -/

/-- Result of running a piece of Python code: a value, or a raised
exception. -/
inductive PyResult (α : Type) where
  | ok (a : α)
  | exn
deriving DecidableEq, Repr

/-- The `{total, succeeded, failed}` counters of `real_time_stats` /
`wallet_stats[...]`. -/
structure OpStats where
  total : ℕ
  succeeded : ℕ
  failed : ℕ
deriving DecidableEq, Repr

def bumpTotal (st : OpStats) : OpStats := { st with total := st.total + 1 }
def bumpSucc (st : OpStats) : OpStats := { st with succeeded := st.succeeded + 1 }
def bumpFail (st : OpStats) : OpStats := { st with failed := st.failed + 1 }

/-- The engine state touched by a cycle. -/
structure EngineState where
  stats : OpStats
  wallet_stats : List (String × OpStats)
  weights : OperationWeights
deriving DecidableEq, Repr

/-- Update the entry for `k` in a wallet-stats table (Python
`self.wallet_stats[k][...] += 1` on a present key). -/
def updWallet (m : List (String × OpStats)) (k : String) (f : OpStats → OpStats) :
    List (String × OpStats) :=
  m.map fun kv => if kv.1 = k then (kv.1, f kv.2) else kv

/-- The four keys of `operation_weights`, i.e. the values
`Randomizer.weighted_choice` can return for it. -/
inductive OpType where
  | transfer
  | swap
  | subscribe_stake
  | lend_borrow
deriving DecidableEq, Repr

/-- One cycle's environment: the wallet lookup result, the weighted draw,
and the behaviour of the dispatched executor.  `service_available` models
`self.services.get(network).get(kind)` being non-`None` for the service the
draw (and, for composite kinds, the 50/50 coin) selects; `exec_result`
models the awaited executor call: a returned boolean, or a raised
exception. -/
structure CycleInput where
  wallet_found : Bool
  wallet_name : String
  network_name : String
  op : OpType
  service_available : Bool
  exec_result : PyResult Bool
deriving DecidableEq, Repr

/-- The dispatch step shared by `execute_operation_cycle` and
`run_single_operation`.  `transfer` and the `subscribe`/`stake` services
are called directly, so their exceptions propagate to the caller's
`except`; `swap` goes through `_execute_swap_operation` and `lend`/`borrow`
through `_execute_lend_operation`/`_execute_borrow_operation`, which catch
exceptions and return `False`, and which also turn a missing service into
`False`. -/
def dispatchOperation (inp : CycleInput) : PyResult Bool :=
  match inp.op with
  | .transfer =>
      if inp.service_available then inp.exec_result else .ok false
  | .swap =>
      if inp.service_available then
        match inp.exec_result with
        | .ok b => .ok b
        | .exn => .ok false
      else .ok false
  | .subscribe_stake =>
      if inp.service_available then inp.exec_result else .ok false
  | .lend_borrow =>
      if inp.service_available then
        match inp.exec_result with
        | .ok b => .ok b
        | .exn => .ok false
      else .ok false

/-- `TransactionEngine.execute_operation_cycle`.  Total-attempted counters
are bumped before dispatch; exactly one of succeeded/failed after.  The
whole body sits in a `try` whose handler bumps the failed counters and
returns `False`; if the wallet's `wallet_stats` entry is missing, the
in-body subscript raises `KeyError`, and the handler's own wallet subscript
re-raises it (modelled by the `.exn` result in that branch). -/
def execute_operation_cycle (s : EngineState) (inp : CycleInput) :
    PyResult Bool × EngineState :=
  if !inp.wallet_found then (.ok false, s)
  else
    let s1 : EngineState := { s with stats := bumpTotal s.stats }
    match s1.wallet_stats.lookup inp.wallet_name with
    | none =>
        -- KeyError at `self.wallet_stats[wallet.name]['total_operations'] += 1`;
        -- the handler bumps the global failed counter, then its own wallet
        -- subscript raises KeyError again, which propagates.
        (.exn, { s1 with stats := bumpFail s1.stats })
    | some _ =>
        let s2 := { s1 with wallet_stats := updWallet s1.wallet_stats inp.wallet_name bumpTotal }
        let s3 := { s2 with weights :=
          if s2.weights.transfer + s2.weights.swap + s2.weights.subscribe_stake
              + s2.weights.lend_borrow = 0 then
            set_network_operation_weights inp.network_name
          else s2.weights }
        match dispatchOperation inp with
        | .ok b =>
            if b then
              (.ok true, { s3 with
                stats := bumpSucc s3.stats
                wallet_stats := updWallet s3.wallet_stats inp.wallet_name bumpSucc })
            else
              (.ok false, { s3 with
                stats := bumpFail s3.stats
                wallet_stats := updWallet s3.wallet_stats inp.wallet_name bumpFail })
        | .exn =>
            (.ok false, { s3 with
              stats := bumpFail s3.stats
              wallet_stats := updWallet s3.wallet_stats inp.wallet_name bumpFail })

/-- `TransactionEngine.run_single_operation`.  Unlike
`execute_operation_cycle`, all counters — including `total` — are updated
only after the dispatched call returns, so the `except` handler bumps the
failed counters without ever having bumped `total`. -/
def run_single_operation (s : EngineState) (inp : CycleInput) :
    PyResult Bool × EngineState :=
  if !inp.wallet_found then (.ok false, s)
  else
    match dispatchOperation inp with
    | .exn =>
        -- outer `except`: global failed += 1, then the wallet subscript
        -- (KeyError when the entry is missing).
        match s.wallet_stats.lookup inp.wallet_name with
        | some _ =>
            (.ok false, { s with
              stats := bumpFail s.stats
              wallet_stats := updWallet s.wallet_stats inp.wallet_name bumpFail })
        | none => (.exn, { s with stats := bumpFail s.stats })
    | .ok b =>
        let s1 : EngineState := { s with stats := bumpTotal s.stats }
        match s1.wallet_stats.lookup inp.wallet_name with
        | none =>
            -- KeyError at the wallet total bump; handler bumps global failed
            -- and re-raises on its own wallet subscript.
            (.exn, { s1 with stats := bumpFail s1.stats })
        | some _ =>
            let s2 := { s1 with wallet_stats := updWallet s1.wallet_stats inp.wallet_name bumpTotal }
            if b then
              (.ok true, { s2 with
                stats := bumpSucc s2.stats
                wallet_stats := updWallet s2.wallet_stats inp.wallet_name bumpSucc })
            else
              (.ok false, { s2 with
                stats := bumpFail s2.stats
                wallet_stats := updWallet s2.wallet_stats inp.wallet_name bumpFail })

/-- Run a sequence of scheduler cycles (the continuous-run loop's repeated
calls to `execute_operation_cycle`), keeping only the state. -/
def runCycles (s : EngineState) (inps : List CycleInput) : EngineState :=
  inps.foldl (fun st inp => (execute_operation_cycle st inp).2) s

/-- The conservation property of a counter triple:
`succeeded + failed = total`. -/
def statsOK (st : OpStats) : Prop := st.succeeded + st.failed = st.total

/-- Conservation globally and for every per-wallet entry. -/
def StatsInv (s : EngineState) : Prop :=
  statsOK s.stats ∧ ∀ kv ∈ s.wallet_stats, statsOK kv.2

/-! ## `services/swap_service.py`: balance and allowance reads -/

/-- `SwapService.get_token_balance`: the whole body is inside `try`, and the
handler returns 0.  `native_read` is the `web3.eth.get_balance` call (taken
for the zero address) and `token_read` the ERC-20 `balanceOf` call; either
can raise. -/
def get_token_balance (token_address : Addr)
    (native_read token_read : Except Unit ℤ) : ℤ :=
  if token_address = zero_address then
    match native_read with
    | .ok v => v
    | .error _ => 0
  else
    match token_read with
    | .ok v => v
    | .error _ => 0

/-- `SwapService.check_allowance`: for the zero (native) address no lookup
is performed and `2**256 - 1` is returned; otherwise the ERC-20 `allowance`
call result is returned, with any exception converted to 0 by the
handler. -/
def check_allowance (token_address : Addr)
    (allowance_read : Except Unit ℤ) : ℤ :=
  if token_address = zero_address then 2 ^ 256 - 1
  else
    match allowance_read with
    | .ok v => v
    | .error _ => 0

/-! ## `services/swap_service.py`: approvals (`approve_token`) -/

/-- Outcome of a submitted transaction's confirmation wait:
a successful receipt (`status == 1`), a mined-but-reverted receipt
(`status != 1`), or a raised exception (timeout, RPC failure...). -/
inductive Submit where
  | success
  | reverted
  | exn
deriving DecidableEq, Repr

/-- An approval transaction as submitted: the spender it grants to and the
granted amount. -/
structure ApproveCall where
  spender : Addr
  amount : ℕ
deriving DecidableEq, Repr

/-- `SwapService.approve_token`: returns the boolean result together with
the list of approval transactions submitted.  `current_allowance` is the
`check_allowance` read, `receipt` the confirmation outcome of the approval
transaction (when one is sent); the `except` handler converts a raised
exception to `False`. -/
def approve_token (token_address router_address : Addr) (amount : ℕ)
    (current_allowance : ℕ) (receipt : Submit) : Bool × List ApproveCall :=
  if token_address = zero_address then (true, [])
  else if amount ≤ current_allowance then (true, [])
  else
    let call : ApproveCall := ⟨router_address, amount⟩
    match receipt with
    | .success => (true, [call])
    | .reverted => (false, [call])
    | .exn => (false, [call])

/-! ## `services/swap_service.py`: amount selection

`choose_amount` is the closure defined inside `_execute_pharos_swap`
(lines 672–692); `_pick_amount` the closure inside `_execute_opn_swap`
(lines 1461–1473).  The uniform draw and the precision choice are explicit
parameters. -/

/-- One entry of the `amount_presets` table of `_execute_pharos_swap`. -/
structure AmountPreset where
  min : ℚ
  max : ℚ
  precisions : List ℚ
deriving DecidableEq, Repr

/-- The `amount_presets` table of `_execute_pharos_swap`, verbatim. -/
def amount_presets : List (String × AmountPreset) :=
  [("USDT", ⟨30, 80, [1, 1/10, 1/100]⟩),
   ("WETH", ⟨8/1000, 25/1000, [1/1000, 1/10000]⟩),
   ("WBTC", ⟨25/100000, 12/10000, [1/10000, 1/100000]⟩)]

/-- `choose_amount(symbol, balance_raw)` from `_execute_pharos_swap`.
`u` is the `random.uniform(preset['min'], preset['max'])` draw and
`precIdx` the `random.choice(preset['precisions'])` index.  Returns the
raw amount in smallest units (0 standing for the "nothing to spend"
outcome, as in the source). -/
def choose_amount (symbol : String) (decimals : ℕ) (balance_raw : ℤ)
    (precIdx : ℕ) (u : ℚ) : ℤ :=
  match amount_presets.lookup symbol with
  | none => 0
  | some preset =>
      if balance_raw ≤ 0 then 0
      else
        let min_raw : ℤ := pyInt (preset.min * 10 ^ decimals)
        let max_raw : ℤ := pyInt (preset.max * 10 ^ decimals)
        let precision : ℚ := preset.precisions.getD precIdx 1
        let digits : ℕ := decimalDigits precision
        let amount_float : ℚ := roundTo u digits
        let amount_raw : ℤ := pyInt (amount_float * 10 ^ decimals)
        let amount_raw : ℤ := max min_raw (min amount_raw max_raw)
        let spend_cap : ℤ := pyInt ((balance_raw : ℚ) * (95/100))
        if spend_cap ≤ 0 then 0
        else
          let amount_raw := min amount_raw spend_cap
          if 0 < amount_raw then amount_raw else 0

/-- `_pick_amount(balance_raw, decimals, pct_range, precision_options,
max_spend)` from `_execute_opn_swap`.  `pct` is the
`random.uniform(pct_range[0], pct_range[1])` draw and `digits` the chosen
precision. -/
def _pick_amount (balance_raw : ℤ) (decimals : ℕ) (pct : ℚ) (digits : ℕ)
    (max_spend : Option ℤ) : ℤ :=
  let amount_float : ℚ := (balance_raw : ℚ) / 10 ^ decimals * pct / 100
  let amount_float : ℚ := roundTo amount_float digits
  let amount_raw : ℤ := pyInt (amount_float * 10 ^ decimals)
  let cap : ℤ := max_spend.getD balance_raw
  let amount_raw : ℤ := min amount_raw cap
  if amount_raw ≤ 0 then min cap 1 else amount_raw

/-! ## `services/swap_service.py`: Arc Curve routes -/

/-- A Curve route as built by `_build_arc_route`: the (padded) hop-address
array and the (padded) per-hop parameter matrix. -/
structure RouteSpec where
  route : List Addr
  swap_params : List (List ℤ)
deriving DecidableEq, Repr

/-- `SwapService._build_arc_route(base_route, base_params, reverse)`.
Forward: right-pad the route to 11 entries with the zero address and the
parameter matrix to 5 rows with `[0,0,0,0]`.  Reverse: drop zero-address
entries, reverse the remaining route, drop all-zero parameter rows,
reverse the remaining rows, then pad the same way. -/
def _build_arc_route (base_route : List Addr) (base_params : List (List ℤ))
    (reverse : Bool) : RouteSpec :=
  if reverse then
    let trimmed_route := base_route.filter (fun addr => addr ≠ zero_address)
    let reversed_route :=
      trimmed_route.reverse ++ List.replicate (11 - trimmed_route.reverse.length) zero_address
    let used_params := base_params.filter (fun row => row.any (fun v => v ≠ 0))
    let reversed_params :=
      used_params.reverse ++ List.replicate (5 - used_params.reverse.length) [0, 0, 0, 0]
    ⟨reversed_route.take 11, reversed_params.take 5⟩
  else
    ⟨(base_route ++ List.replicate (11 - base_route.length) zero_address).take 11,
     (base_params ++ List.replicate (5 - base_params.length) [0, 0, 0, 0]).take 5⟩

/-- From the claim's words (C6), for comparison with the source: the
"naive reversal" of a template — reverse the unpadded forward route array
and the forward parameter rows as they are, then pad to capacity. -/
def naiveReverseSpec (base_route : List Addr) (base_params : List (List ℤ)) : RouteSpec :=
  ⟨(base_route.reverse ++ List.replicate (11 - base_route.length) zero_address).take 11,
   (base_params.reverse ++ List.replicate (5 - base_params.length) [0, 0, 0, 0]).take 5⟩

/-- `self.arc_native_placeholder`. -/
def arc_native_placeholder : Addr := "0xEeeeeeeeeeeeeeeeeeeeeeeeeeeeeeeeeeeeeeee"

/-- The hardcoded `pools` table of `_get_arc_route_templates`. -/
def pool_rusdc : Addr := "0xa87680b380207f6eb2ab0613401277124659d7f3"
def pool_warc : Addr := "0xe82a94d78120d06b9ef6709ee22a3696a0ecf520"
def pool_dusdt : Addr := "0xdfcefa1350a88deb1db0e7ef2cf39dbecb7ba569"
def pool_brid : Addr := "0xadbc6745ce0248ef470d2e344d95ad7442de6041"
def pool_bbtoken : Addr := "0xf2f812214d2b9f83ae430e06962dd889e19b9eb3"
def pool_eurc : Addr := "0x269b47978f4348c96f521658ef452ff85906fcfe"
def pool_tst : Addr := "0x16de4cc9c6271c1e06d0889d48648bc42746b4eb"
def pool_ca4f : Addr := "0x3b9624be2f1280fc927532f44daf15901260d9ec"

/-- The token table entries `_get_arc_route_templates`, `_execute_arc_swap`
and `_execute_arc_defi_swap` read via `tokens.get(...)` (a missing symbol is
`none`; the source tests truthiness of the returned address, and addresses
in the registry are non-empty strings). -/
structure ArcTokens where
  USDC : Option Addr
  WUSDC : Option Addr
  SYN : Option Addr
  USDT : Option Addr
  rUSDC : Option Addr
  EURC : Option Addr
  CA4F : Option Addr
  TST : Option Addr
  wARC : Option Addr
  dUSDT : Option Addr
  BRID : Option Addr
  bbToken : Option Addr
  SRAC : Option Addr
  RACS : Option Addr
  SACS : Option Addr
  KITTY : Option Addr
  DOGG : Option Addr
deriving DecidableEq, Repr

/-- `SwapService._get_arc_route_templates(tokens)`: the route templates, in
the source's insertion order, each entry a `(forward, reverse)` pair.  Every
template but `rUSDC` derives its reverse via
`_build_arc_route(base_route, base_params, reverse=True)`; `rUSDC` passes an
explicitly written reverse route and parameter rows instead. -/
def _get_arc_route_templates (t : ArcTokens) : List (String × RouteSpec × RouteSpec) :=
  let native := arc_native_placeholder
  (match t.WUSDC with
   | some wusdc =>
      [("WUSDC", (_build_arc_route [native, wusdc, wusdc] [[0, 0, 8, 0]] false,
                  _build_arc_route [native, wusdc, wusdc] [[0, 0, 8, 0]] true))]
   | none => []) ++
  (match t.WUSDC, t.rUSDC with
   | some wusdc, some rusdc =>
      [("rUSDC", (_build_arc_route [native, wusdc, wusdc, pool_rusdc, rusdc]
                    [[0, 0, 8, 0], [0, 1, 1, 10]] false,
                  _build_arc_route [rusdc, pool_rusdc, wusdc, wusdc, native]
                    [[1, 0, 1, 10], [0, 0, 8, 0]] false))]
   | _, _ => []) ++
  (match t.WUSDC, t.wARC with
   | some wusdc, some warc =>
      [("wARC", (_build_arc_route [native, wusdc, wusdc, pool_warc, warc]
                   [[0, 0, 8, 0], [0, 1, 1, 20]] false,
                 _build_arc_route [native, wusdc, wusdc, pool_warc, warc]
                   [[0, 0, 8, 0], [0, 1, 1, 20]] true))]
   | _, _ => []) ++
  (match t.WUSDC, t.dUSDT with
   | some wusdc, some dusdt =>
      [("dUSDT", (_build_arc_route [native, wusdc, wusdc, pool_dusdt, dusdt]
                    [[0, 0, 8, 0], [0, 1, 1, 10]] false,
                  _build_arc_route [native, wusdc, wusdc, pool_dusdt, dusdt]
                    [[0, 0, 8, 0], [0, 1, 1, 10]] true))]
   | _, _ => []) ++
  (match t.WUSDC, t.BRID with
   | some wusdc, some brid =>
      [("BRID", (_build_arc_route [native, wusdc, wusdc, pool_brid, brid]
                   [[0, 0, 8, 0], [0, 1, 1, 20]] false,
                 _build_arc_route [native, wusdc, wusdc, pool_brid, brid]
                   [[0, 0, 8, 0], [0, 1, 1, 20]] true))]
   | _, _ => []) ++
  (match t.WUSDC, t.bbToken with
   | some wusdc, some bbtoken =>
      [("bbToken", (_build_arc_route [native, wusdc, wusdc, pool_bbtoken, bbtoken]
                      [[0, 0, 8, 0], [0, 1, 1, 10]] false,
                    _build_arc_route [native, wusdc, wusdc, pool_bbtoken, bbtoken]
                      [[0, 0, 8, 0], [0, 1, 1, 10]] true))]
   | _, _ => []) ++
  (match t.WUSDC, t.EURC with
   | some wusdc, some eurc =>
      [("EURC", (_build_arc_route [native, wusdc, wusdc, pool_eurc, eurc]
                   [[0, 0, 8, 0], [1, 0, 1, 10]] false,
                 _build_arc_route [native, wusdc, wusdc, pool_eurc, eurc]
                   [[0, 0, 8, 0], [1, 0, 1, 10]] true))]
   | _, _ => []) ++
  (match t.WUSDC, t.EURC, t.TST with
   | some wusdc, some eurc, some tst =>
      [("TST", (_build_arc_route [native, wusdc, wusdc, pool_eurc, eurc, pool_tst, tst]
                  [[0, 0, 8, 0], [1, 0, 1, 10], [0, 1, 1, 20]] false,
                _build_arc_route [native, wusdc, wusdc, pool_eurc, eurc, pool_tst, tst]
                  [[0, 0, 8, 0], [1, 0, 1, 10], [0, 1, 1, 20]] true))]
   | _, _, _ => []) ++
  (match t.WUSDC, t.EURC, t.CA4F with
   | some wusdc, some eurc, some ca4f =>
      [("CA4F", (_build_arc_route [native, wusdc, wusdc, pool_eurc, eurc, pool_ca4f, ca4f]
                   [[0, 0, 8, 0], [1, 0, 1, 10], [1, 0, 1, 20]] false,
                 _build_arc_route [native, wusdc, wusdc, pool_eurc, eurc, pool_ca4f, ca4f]
                   [[0, 0, 8, 0], [1, 0, 1, 10], [1, 0, 1, 20]] true))]
   | _, _, _ => [])

/-! ## `services/swap_service.py`: `_execute_arc_swap` control flow

The Arc swap driver is modelled as a function of explicit inputs:
the environment (`ArcEnv`: configuration, balance snapshot, router
availability, decimals oracle), the random draws (`ArcDraws`), and the
on-chain outcomes of submitted transactions (`ArcOutcomes`).  The model
returns the boolean outcome together with the ordered trace of swap
attempts (router family, route, confirmation outcome) submitted during one
invocation — including those of the recursive `arc_reroll` pass.
`random.choice(seq)` is modelled as `seq[idx % len(seq)]` for an input
index `idx`. -/

/-- `random.choice` over a non-empty list, driven by an input index. -/
def choiceD (l : List String) (i : ℕ) : String :=
  match l with
  | [] => ""
  | x :: xs => (x :: xs).getD (i % (x :: xs).length) x

/-- `tokens.get(symbol)` over the Arc token table. -/
def arcTokensGet (t : ArcTokens) (sym : String) : Option Addr :=
  if sym = "USDC" then t.USDC
  else if sym = "WUSDC" then t.WUSDC
  else if sym = "SYN" then t.SYN
  else if sym = "USDT" then t.USDT
  else if sym = "rUSDC" then t.rUSDC
  else if sym = "EURC" then t.EURC
  else if sym = "CA4F" then t.CA4F
  else if sym = "TST" then t.TST
  else if sym = "wARC" then t.wARC
  else if sym = "dUSDT" then t.dUSDT
  else if sym = "BRID" then t.BRID
  else if sym = "bbToken" then t.bbToken
  else if sym = "SRAC" then t.SRAC
  else if sym = "RACS" then t.RACS
  else if sym = "SACS" then t.SACS
  else if sym = "KITTY" then t.KITTY
  else if sym = "DOGG" then t.DOGG
  else none

/-- The `curve_blacklist` set of `_execute_arc_swap` (also spelled out
literally in the low-amount check for Curve targets). -/
def curve_blacklist : List String := ["TST", "EURC", "CA4F"]

/-- The `allowed_universal_symbols` set of `_execute_arc_swap`. -/
def allowed_universal_symbols : List String := ["USDC", "WUSDC", "SYN", "USDT"]

/-- The `min_amount_tokens` table of `_execute_arc_swap` (amounts in whole
tokens). -/
def min_amount_tokens : List (String × ℚ) :=
  [("wARC", 1/100), ("dUSDT", 1/100), ("bbToken", 1/100), ("BRID", 5/100),
   ("TST", 2/10), ("CA4F", 1), ("EURC", 1), ("rUSDC", 3/10)]

/-- Environment of one `_execute_arc_swap` call: configuration flags, the
token table, the balance snapshot (`__native__` and the nonzero token
balances), and oracles for token decimals and the DeFi router's
`findBestPath`. -/
structure ArcEnv where
  router_ok : Bool
  wallet_connected : Bool
  tokens_nonempty : Bool
  tokens : ArcTokens
  native_symbol : String
  native_balance : ℤ
  nonzero : List (String × ℤ)
  curve_router : Bool
  defi_router : Bool
  decimals : Addr → ℕ
  defi_best_path : Option (List Addr)

/-- The random draws of one `_execute_arc_swap` pass, in source order. -/
structure ArcDraws where
  defi_roll : Bool
  defi_target_idx : ℕ
  defi_u : ℚ
  native_roll : Bool
  token_pick_idx : ℕ
  swap_u : ℚ
  curve_target_idx : ℕ
  curve_from_idx : ℕ
  universal_target_idx : ℕ
  fb_target_idx : ℕ
  fb_from_idx : ℕ

/-- The on-chain outcomes observed by one `_execute_arc_swap` pass. -/
structure ArcOutcomes where
  defi_approve : Bool
  defi_submit : Submit
  approve_main : Bool
  curve_main : Submit
  withdraw : Submit
  approve_universal : Bool
  universal : Submit
  approve_fb : Bool
  curve_fb : Submit

/-- The router families a swap attempt can go through. -/
inductive RouterKind where
  | defi
  | curve
  | universal
  | wusdcWithdraw
deriving DecidableEq, Repr

/-- One submitted swap attempt: the router used, the route submitted to it,
and the confirmation outcome. -/
structure Attempt where
  router : RouterKind
  route : RouteSpec
  outcome : Submit
deriving DecidableEq, Repr

/-- Intermediate control flow of a stage of `_execute_arc_swap`:
return a value, fall through to the next stage, or hit an
`arc_reroll` site. -/
inductive FlowRes where
  | halt (b : Bool)
  | next
  | reroll
deriving DecidableEq, Repr

/-- Result of one pass of `_execute_arc_swap`. -/
inductive ArcStep where
  | done (b : Bool)
  | rerollReq
deriving DecidableEq, Repr

/-- `arc_reroll()` as seen from a reroll site: a pass already running with
`_retry=True` returns `False`; otherwise the recursion is requested. -/
def stepOfReroll (retry : Bool) : ArcStep :=
  if retry then .done false else .rerollReq

/-- Dispatch on a stage's control-flow result: a produced value returns, a
reroll site resolves against the retry flag, and fall-through continues
with the next stage. -/
def flowStep (retry : Bool) (fr : FlowRes) (tr : List Attempt)
    (next : Unit → ArcStep × List Attempt) : ArcStep × List Attempt :=
  match fr with
  | .halt b => (.done b, tr)
  | .reroll => (stepOfReroll retry, tr)
  | .next => next ()

/-- `pick_token_from_balances(allowed)` from `_execute_arc_swap`:
the nonzero balances restricted to `allowed`, one picked by the draw. -/
def pickToken (nonzero : List (String × ℤ)) (allowed : List String) (idx : ℕ) :
    Option (String × ℤ) :=
  match nonzero.filter (fun kv => allowed.contains kv.1) with
  | [] => none
  | x :: xs => some ((x :: xs).getD (idx % (x :: xs).length) x)

/-- The keys of `allowed_tokens` in `_execute_arc_swap`
(`{k: v for k, v in tokens.items() if k in allowed_universal_symbols and v}`). -/
def allowedTokens (t : ArcTokens) : List String :=
  allowed_universal_symbols.filter (fun s => (arcTokensGet t s).isSome)

/-- `apply_min_amount(symbol, amount)` from `_execute_arc_swap`. -/
def apply_min_amount (env : ArcEnv) (symbol : String) (amount : ℤ) : ℤ :=
  match min_amount_tokens.lookup symbol with
  | none => amount
  | some m =>
      let token_addr := (arcTokensGet env.tokens symbol).getD "0x0"
      max amount (pyInt (m * 10 ^ env.decimals token_addr))

/-- The amount computation of `_execute_arc_defi_swap`: a rounded uniform
draw of 5–5.5 USDC clamped into `[int(5·10^d), int(5.5·10^d)]`. -/
def defiAmount (d : ArcDraws) (usdc_decimals : ℕ) : ℤ :=
  let min_swap := pyInt (5 * (10 : ℚ) ^ usdc_decimals)
  let max_swap := pyInt ((11/2) * (10 : ℚ) ^ usdc_decimals)
  let amount_usdc := roundTo d.defi_u 3
  let a0 := pyInt (amount_usdc * 10 ^ usdc_decimals)
  let a1 := if a0 < min_swap then min_swap else a0
  if a1 > max_swap then max_swap else a1

/-- The amount recomputation shared verbatim by the main Curve branch and
the Curve fallback of `_execute_arc_swap`: percentage of the spendable
balance, raised to the per-token minimum, floored at 1 unit, and capped at
the spendable balance when spending native funds. -/
def curveAmount (env : ArcEnv) (from1 : String) (spendable : ℤ) (pct : ℚ)
    (ntt : Bool) : ℤ :=
  let a1 := pyInt ((spendable : ℚ) * pct)
  let a2 := apply_min_amount env from1 a1
  let a3 := if a2 ≤ 0 then min spendable 1 else a2
  if ntt && a3 > spendable then spendable else a3

/-- `SwapService._execute_arc_defi_swap`: gated on the DeFi router, a USDC
balance of at least 80 whole USDC, and a configured target; swaps a rounded
uniform draw of 5–5.5 USDC clamped into `[5, 5.5]` units; its whole body is
inside `try`, so it returns a boolean and never raises. -/
def arcDefiSwap (env : ArcEnv) (d : ArcDraws) (o : ArcOutcomes) : Bool × List Attempt :=
  if !env.defi_router then (false, [])
  else
    match env.tokens.USDC with
    | none => (false, [])
    | some usdc_addr =>
      let usdc_balance := lookupD env.nonzero "USDC" 0
      let usdc_decimals := env.decimals usdc_addr
      if usdc_balance < pyInt (80 * 10 ^ usdc_decimals) then (false, [])
      else
        match ["EURC", "SRAC", "RACS", "SACS", "KITTY", "DOGG"].filter
            (fun s => (arcTokensGet env.tokens s).isSome) with
        | [] => (false, [])
        | x :: xs =>
          let target := choiceD (x :: xs) d.defi_target_idx
          let target_addr := (arcTokensGet env.tokens target).getD ""
          let spendable := usdc_balance
          let a2 := defiAmount d usdc_decimals
          if a2 > spendable then (false, [])
          else if !o.defi_approve then (false, [])
          else
            let path :=
              match env.defi_best_path with
              | some p => if p.length < 2 then [usdc_addr, target_addr] else p
              | none => [usdc_addr, target_addr]
            let att : Attempt := ⟨.defi, ⟨path, []⟩, o.defi_submit⟩
            match o.defi_submit with
            | .success => (true, [att])
            | _ => (false, [att])

/-- The Curve target/route selection of `_execute_arc_swap`'s main Curve
branch.  Returns the (possibly reassigned) `from_symbol` and, when the
Curve path stays enabled, the chosen target symbol and route. -/
def arcCurveSel (env : ArcEnv) (d : ArcDraws) (ntt : Bool) (from0 : String)
    (amount_in0 : ℤ) (use_curve1 : Bool) : String × Option (String × RouteSpec) :=
  if !use_curve1 then (from0, none)
  else
    let templates := _get_arc_route_templates env.tokens
    let arc_tokens := templates.map (fun e => e.1)
    if arc_tokens.isEmpty then (from0, none)
    else if ntt then
      match arc_tokens.filter (fun t => !curve_blacklist.contains t) with
      | [] => (from0, none)
      | x :: xs =>
        let target := choiceD (x :: xs) d.curve_target_idx
        -- dropping Curve for TST/EURC/CA4F targets below 1 whole unit
        if curve_blacklist.contains target && amount_in0 < 10 ^ 18 then (from0, none)
        else
          match (templates.lookup target).map (fun p => p.1) with
          | some r => (from0, some (target, r))
          | none => (from0, none)
    else
      match arc_tokens.filter
          (fun t => (env.nonzero.lookup t).isSome && !curve_blacklist.contains t) with
      | [] => (from0, none)
      | x :: xs =>
        let f := choiceD (x :: xs) d.curve_from_idx
        match (templates.lookup f).map (fun p => p.2) with
        | some r => (f, some (env.native_symbol, r))
        | none => (f, none)

/-- The main Curve execution of `_execute_arc_swap`: gas-reserve and
balance handling, amount recomputation, the Universal/Curve support check
and approval for token→native, then the Curve submission.  A revert falls
through to the Universal branch (carrying the recomputed amount); an
exception escapes to the outer `except`, i.e. to `arc_reroll`. -/
def arcCurveMain (env : ArcEnv) (o : ArcOutcomes) (ntt : Bool) (from1 : String)
    (sel : Option (String × RouteSpec)) (pct : ℚ) (amount_in0 : ℤ)
    (arc_tokens : List String) : FlowRes × ℤ × List Attempt :=
  match sel with
  | none => (.next, amount_in0, [])
  | some (_target, route) =>
    let spendable :=
      if ntt then max (env.native_balance - 5 * 10 ^ 16) 0
      else lookupD env.nonzero from1 0
    if spendable ≤ 0 then (.halt false, 0, [])
    else
      let a4 := curveAmount env from1 spendable pct ntt
      if a4 ≤ 0 then (.halt false, 0, [])
      else if !ntt && !(allowed_universal_symbols.contains from1.toUpper)
           && !(arc_tokens.contains from1.toUpper) then (.halt false, 0, [])
      else if !ntt && !o.approve_main then (.halt false, 0, [])
      else
        let att : Attempt := ⟨.curve, route, o.curve_main⟩
        match o.curve_main with
        | .success => (.halt true, a4, [att])
        | .reverted => (.next, a4, [att])
        | .exn => (.reroll, a4, [att])

/-- The Universal Router branch of `_execute_arc_swap`.  For native→token:
wrap + exact-in swap to a configured target.  For token→native: an
unsupported token reaches `arc_reroll`; WUSDC first tries a `withdraw`
(success returns, a revert falls into the generic path, an exception
escapes to `arc_reroll`); then approval and the exact-in swap + unwrap.
The Universal submission is inside an inner `try`, so both a revert and an
exception fall through to the Curve fallback. -/
def arcUniversal (env : ArcEnv) (d : ArcDraws) (o : ArcOutcomes) (ntt : Bool)
    (from1 : String) (_amountU : ℤ) (wusdc_addr : Addr) : FlowRes × List Attempt :=
  if ntt then
    match ["SYN", "USDT", "WUSDC"].filter (fun s => (allowedTokens env.tokens).contains s) with
    | [] => (.halt false, [])
    | x :: xs =>
      let target := if (x :: xs).contains from1 then from1
                    else choiceD (x :: xs) d.universal_target_idx
      let target_addr := (arcTokensGet env.tokens target).getD ""
      let att : Attempt := ⟨.universal, ⟨[wusdc_addr, target_addr], []⟩, o.universal⟩
      match o.universal with
      | .success => (.halt true, [att])
      | _ => (.next, [att])
  else
    if !(allowedTokens env.tokens).contains from1 then (.reroll, [])
    else
      match arcTokensGet env.tokens from1 with
      | none => (.halt false, [])
      | some token_addr =>
        if from1 = "WUSDC" then
          let attW : Attempt := ⟨.wusdcWithdraw, ⟨[token_addr], []⟩, o.withdraw⟩
          match o.withdraw with
          | .success => (.halt true, [attW])
          | .exn => (.reroll, [attW])
          | .reverted =>
            if !o.approve_universal then (.halt false, [attW])
            else
              let att2 : Attempt := ⟨.universal, ⟨[token_addr, wusdc_addr], []⟩, o.universal⟩
              match o.universal with
              | .success => (.halt true, [attW, att2])
              | _ => (.next, [attW, att2])
        else
          if !o.approve_universal then (.halt false, [])
          else
            let att2 : Attempt := ⟨.universal, ⟨[token_addr, wusdc_addr], []⟩, o.universal⟩
            match o.universal with
            | .success => (.halt true, [att2])
            | _ => (.next, [att2])

/-- The Curve fallback of `_execute_arc_swap` (after a failed Universal
attempt): re-pick a target/route (no blacklist filter in the token→native
case), recompute the amount against the picked balance, approve for
token→native, submit; a revert or an exception ends in `arc_reroll`. -/
def arcFallback (env : ArcEnv) (d : ArcDraws) (o : ArcOutcomes) (ntt : Bool)
    (from1 : String) (pct : ℚ) : FlowRes × List Attempt :=
  let templates := _get_arc_route_templates env.tokens
  let arc_tokens := templates.map (fun e => e.1)
  if arc_tokens.isEmpty || !env.curve_router then (.halt false, [])
  else
    let selFb : Option (String × RouteSpec × ℤ) :=
      if ntt then
        match arc_tokens.filter (fun t => !curve_blacklist.contains t) with
        | [] => none
        | x :: xs =>
          let target := choiceD (x :: xs) d.fb_target_idx
          match (templates.lookup target).map (fun p => p.1) with
          | some r => some (from1, r, max (env.native_balance - 5 * 10 ^ 16) 0)
          | none => none
      else
        match arc_tokens.filter (fun t => (env.nonzero.lookup t).isSome) with
        | [] => none
        | x :: xs =>
          let f := choiceD (x :: xs) d.fb_from_idx
          match (templates.lookup f).map (fun p => p.2) with
          | some r => some (f, r, lookupD env.nonzero f 0)
          | none => none
    match selFb with
    | none => (.halt false, [])
    | some (fromF, route, spendable) =>
      if spendable ≤ 0 then (.halt false, [])
      else
        let _a4 := curveAmount env fromF spendable pct ntt
        if !ntt && !o.approve_fb then (.halt false, [])
        else
          let att : Attempt := ⟨.curve, route, o.curve_fb⟩
          match o.curve_fb with
          | .success => (.halt true, [att])
          | .reverted => (.reroll, [att])
          | .exn => (.reroll, [att])

/-- One pass of `SwapService._execute_arc_swap` (one value of `_retry`):
precondition checks, the optional DeFi attempt, direction and amount
selection, the main Curve attempt, the Universal branch, the Curve
fallback, with `arc_reroll` resolved against the `retry` flag. -/
def arcSwapOnce (env : ArcEnv) (d : ArcDraws) (o : ArcOutcomes) (retry : Bool) :
    ArcStep × List Attempt :=
  if !env.router_ok then (.done false, [])
  else if !env.wallet_connected then (.done false, [])
  else if !env.tokens_nonempty then (.done false, [])
  else
    match env.tokens.WUSDC with
    | none => (.done false, [])
    | some wusdc_addr =>
      let usdc_decimals := env.decimals ((env.tokens.USDC).getD "0x0")
      let allow_defi := env.defi_router
        && decide (lookupD env.nonzero "USDC" 0 ≥ 40 * 10 ^ usdc_decimals)
      let templates := _get_arc_route_templates env.tokens
      let use_curve1 := !templates.isEmpty && env.curve_router
      let defiRes :=
        if allow_defi && d.defi_roll then arcDefiSwap env d o else (false, [])
      let tr0 := defiRes.2
      if defiRes.1 then (.done true, tr0)
      else
        let dir : Option (Bool × String × ℤ) :=
          if d.native_roll then
            if env.native_balance > 0 then some (true, env.native_symbol, env.native_balance)
            else
              match pickToken env.nonzero ["SYN", "USDT", "WUSDC"] d.token_pick_idx with
              | some (s, b) => if b ≤ 0 then none else some (false, s, b)
              | none => none
          else
            match pickToken env.nonzero ["SYN", "USDT", "WUSDC"] d.token_pick_idx with
            | some (s, b) =>
                if b ≤ 0 then
                  if env.native_balance > 0 then some (true, env.native_symbol, env.native_balance)
                  else none
                else some (false, s, b)
            | none =>
                if env.native_balance > 0 then some (true, env.native_symbol, env.native_balance)
                else none
        match dir with
        | none => (.done false, tr0)
        | some (ntt, from0, balance) =>
          let pct := d.swap_u / 100
          let amount_in0 := pyInt ((balance : ℚ) * pct)
          if amount_in0 ≤ 0 then (.done false, tr0)
          else
            let arc_tokens := templates.map (fun e => e.1)
            let fs := arcCurveSel env d ntt from0 amount_in0 use_curve1
            let from1 := fs.1
            let m := arcCurveMain env o ntt from1 fs.2 pct amount_in0 arc_tokens
            let tr1 := m.2.2
            flowStep retry m.1 (tr0 ++ tr1) (fun _ =>
              let u := arcUniversal env d o ntt from1 m.2.1 wusdc_addr
              let tr2 := u.2
              flowStep retry u.1 (tr0 ++ tr1 ++ tr2) (fun _ =>
                let f := arcFallback env d o ntt from1 pct
                let tr3 := f.2
                flowStep retry f.1 (tr0 ++ tr1 ++ tr2 ++ tr3) (fun _ =>
                  (.done false, tr0 ++ tr1 ++ tr2 ++ tr3))))

/-- `SwapService._execute_arc_swap` including the `arc_reroll` recursion:
at most one rerolled pass (`_retry=True`), whose own reroll sites return
`False`. -/
def _execute_arc_swap (env : ArcEnv) (d1 : ArcDraws) (o1 : ArcOutcomes)
    (d2 : ArcDraws) (o2 : ArcOutcomes) : Bool × List Attempt :=
  match arcSwapOnce env d1 o1 false with
  | (.done b, tr) => (b, tr)
  | (.rerollReq, tr) =>
    match arcSwapOnce env d2 o2 true with
    | (.done b, tr2) => (b, tr ++ tr2)
    | (.rerollReq, tr2) => (false, tr ++ tr2)

/-- Whether an attempt failed (reverted or raised). -/
def attemptFailed (a : Attempt) : Bool :=
  match a.outcome with
  | .success => false
  | _ => true

/-- Whether a trace re-attempts a router/route combination that already
failed earlier in the same trace. -/
def hasFailedRepeat : List Attempt → Bool
  | [] => false
  | a :: rest =>
      (attemptFailed a
        && rest.any (fun b => decide (a.router = b.router) && decide (a.route = b.route)))
      || hasFailedRepeat rest

/-! ## Concrete instances used by witnesses and counterexamples -/

/-- An Arc token table with every template token configured (distinct
placeholder addresses). -/
def arcTokensFull : ArcTokens :=
  { USDC := some "0xUSDC", WUSDC := some "0xWUSDC", SYN := some "0xSYN",
    USDT := some "0xUSDT", rUSDC := some "0xrUSDC", EURC := some "0xEURC",
    CA4F := some "0xCA4F", TST := some "0xTST", wARC := some "0xwARC",
    dUSDT := some "0xdUSDT", BRID := some "0xBRID", bbToken := some "0xbbToken",
    SRAC := none, RACS := none, SACS := none, KITTY := none, DOGG := none }

/-- An Arc token table with only WUSDC and wARC configured, so the Curve
template list is exactly `[WUSDC, wARC]`. -/
def arcTokensWarc : ArcTokens :=
  { USDC := none, WUSDC := some "0xWUSDC", SYN := none, USDT := none,
    rUSDC := none, EURC := none, CA4F := none, TST := none,
    wARC := some "0xwARC", dUSDT := none, BRID := none, bbToken := none,
    SRAC := none, RACS := none, SACS := none, KITTY := none, DOGG := none }

/-- An Arc environment: routers configured, 1 native unit of balance, no
token balances. -/
def arcEnvRepeat : ArcEnv :=
  { router_ok := true, wallet_connected := true, tokens_nonempty := true,
    tokens := arcTokensWarc, native_symbol := "USDC", native_balance := 10 ^ 18,
    nonzero := [], curve_router := true, defi_router := false,
    decimals := fun _ => 18, defi_best_path := none }

/-- Draws steering one pass onto the wARC Curve route, then the Universal
branch, then the wARC Curve route again in the fallback. -/
def arcDrawsRepeat : ArcDraws :=
  { defi_roll := false, defi_target_idx := 0, defi_u := 5, native_roll := true,
    token_pick_idx := 0, swap_u := 1, curve_target_idx := 1, curve_from_idx := 0,
    universal_target_idx := 0, fb_target_idx := 1, fb_from_idx := 0 }

/-- Outcomes in which every submitted transaction is mined but reverted
and every approval succeeds. -/
def arcOutcomesAllRevert : ArcOutcomes :=
  { defi_approve := true, defi_submit := .reverted, approve_main := true,
    curve_main := .reverted, withdraw := .reverted, approve_universal := true,
    universal := .reverted, approve_fb := true, curve_fb := .reverted }

/-- The forward wARC Curve route of the `arcTokensWarc` table. -/
def warcForward : RouteSpec :=
  _build_arc_route [arc_native_placeholder, "0xWUSDC", "0xWUSDC", pool_warc, "0xwARC"]
    [[0, 0, 8, 0], [0, 1, 1, 20]] false

/-! ## Helper lemmas -/

theorem roundHalfEven_near (y : ℚ) : |(roundHalfEven y : ℚ) - y| ≤ 1/2 := by
  have hfl : ((⌊y⌋ : ℤ) : ℚ) ≤ y := Int.floor_le y
  have hlt : y < (⌊y⌋ : ℚ) + 1 := Int.lt_floor_add_one y
  unfold roundHalfEven
  rcases lt_trichotomy (y - (⌊y⌋ : ℚ)) (1/2) with h | h | h
  · simp only [if_pos h]
    rw [abs_le]
    constructor <;> linarith
  · rw [if_neg (by linarith), if_neg (by linarith)]
    split <;> (rw [abs_le]; push_cast; constructor <;> linarith)
  · rw [if_neg (by linarith), if_pos h]
    rw [abs_le]
    push_cast
    constructor <;> linarith

theorem roundTo_near (x : ℚ) (d : ℕ) : |roundTo x d - x| ≤ 1 / (2 * 10 ^ d) := by
  have h10 : (0:ℚ) < 10 ^ d := by positivity
  have h := roundHalfEven_near (x * 10 ^ d)
  unfold roundTo
  have heq : (roundHalfEven (x * 10 ^ d) : ℚ) / 10 ^ d - x
      = ((roundHalfEven (x * 10 ^ d) : ℚ) - x * 10 ^ d) / 10 ^ d := by
    field_simp
    ring
  rw [heq, abs_div, abs_of_pos h10, div_le_div_iff₀ h10 (by positivity)]
  calc |(roundHalfEven (x * 10 ^ d) : ℚ) - x * 10 ^ d| * (2 * 10 ^ d)
      ≤ (1/2) * (2 * 10 ^ d) := by
        apply mul_le_mul_of_nonneg_right h (by positivity)
    _ = 1 * 10 ^ d := by ring

theorem pyInt_le_self (x : ℚ) (hx : 0 ≤ x) : (pyInt x : ℚ) ≤ x := by
  unfold pyInt
  rw [if_pos hx]
  exact Int.floor_le x

theorem spend_cap_le (b : ℤ) (hb : 0 ≤ b) : pyInt ((b : ℚ) * (95/100)) ≤ b := by
  have h0 : (0:ℚ) ≤ (b : ℚ) * (95/100) := by positivity
  unfold pyInt
  rw [if_pos h0]
  have hbq : (0:ℚ) ≤ (b : ℚ) := by exact_mod_cast hb
  have : ((b : ℚ) * (95/100)) ≤ (b : ℚ) := by nlinarith
  calc ⌊(b : ℚ) * (95/100)⌋ ≤ ⌊(b : ℚ)⌋ := Int.floor_mono this
    _ = b := Int.floor_intCast b

theorem string_beq (a b : String) : (a == b) = decide (a = b) := by
  by_cases h : a = b <;> simp [h]

/-- Composing two updates of the same wallet entry. -/
theorem updWallet_comp (m : List (String × OpStats)) (k : String) (f g : OpStats → OpStats) :
    updWallet (updWallet m k f) k g = updWallet m k (fun st => g (f st)) := by
  unfold updWallet
  rw [List.map_map]
  apply List.map_congr_left
  intro kv _
  by_cases h : kv.1 = k <;> simp [h, Function.comp]

/-- An update whose function preserves conservation preserves it for every
entry of the table. -/
theorem updWallet_pres (m : List (String × OpStats)) (k : String) (f : OpStats → OpStats)
    (hf : ∀ st, statsOK st → statsOK (f st)) (h : ∀ kv ∈ m, statsOK kv.2) :
    ∀ kv ∈ updWallet m k f, statsOK kv.2 := by
  intro kv hkv
  unfold updWallet at hkv
  obtain ⟨kv', hkv', heq⟩ := List.mem_map.1 hkv
  by_cases hk : kv'.1 = k
  · rw [if_pos hk] at heq
    subst heq
    exact hf _ (h kv' hkv')
  · rw [if_neg hk] at heq
    subst heq
    exact h kv' hkv'

/-! ## Stage lemmas for the `_execute_arc_swap` control flow -/

theorem arcDefiSwap_len (env : ArcEnv) (d : ArcDraws) (o : ArcOutcomes) :
    (arcDefiSwap env d o).2.length ≤ 1 := by
  unfold arcDefiSwap
  repeat' split
  all_goals try simp
  all_goals (repeat' split)
  all_goals try simp
  all_goals try (split_ifs <;> (first | simp | omega))
  all_goals (first | simp | omega)

theorem arcCurveMain_len (env : ArcEnv) (o : ArcOutcomes) (ntt : Bool) (from1 : String)
    (sel : Option (String × RouteSpec)) (pct : ℚ) (a0 : ℤ) (toks : List String) :
    (arcCurveMain env o ntt from1 sel pct a0 toks).2.2.length ≤ 1 := by
  unfold arcCurveMain
  repeat' split
  all_goals try simp
  all_goals (repeat' split)
  all_goals try simp
  all_goals try (split_ifs <;> (first | simp | omega))
  all_goals (first | simp | omega)

theorem arcUniversal_len (env : ArcEnv) (d : ArcDraws) (o : ArcOutcomes) (ntt : Bool)
    (from1 : String) (amt : ℤ) (w : Addr) :
    (arcUniversal env d o ntt from1 amt w).2.length ≤ 2 := by
  unfold arcUniversal
  repeat' split
  all_goals try simp
  all_goals (repeat' split)
  all_goals try simp
  all_goals try (split_ifs <;> (first | simp | omega))
  all_goals (first | simp | omega)

theorem arcFallback_len (env : ArcEnv) (d : ArcDraws) (o : ArcOutcomes) (ntt : Bool)
    (from1 : String) (pct : ℚ) :
    (arcFallback env d o ntt from1 pct).2.length ≤ 1 := by
  unfold arcFallback
  repeat' split
  all_goals try simp
  all_goals (repeat' split)
  all_goals try simp
  all_goals try (split_ifs <;> (first | simp | omega))
  all_goals (first | simp | omega)

theorem defi_branch_len (env : ArcEnv) (d : ArcDraws) (o : ArcOutcomes) (c : Prop)
    [Decidable c] : ((if c then arcDefiSwap env d o else (false, [])).2).length ≤ 1 := by
  split
  · exact arcDefiSwap_len env d o
  · simp

theorem len_comp2 (a b : List Attempt) (ha : a.length ≤ 1) (hb : b.length ≤ 1) :
    (a ++ b).length ≤ 5 := by
  simp only [List.length_append]
  omega

theorem len_comp3 (a b c : List Attempt) (ha : a.length ≤ 1) (hb : b.length ≤ 1)
    (hc : c.length ≤ 2) : (a ++ b ++ c).length ≤ 5 := by
  simp only [List.length_append]
  omega

theorem len_comp4 (a b c e : List Attempt) (ha : a.length ≤ 1) (hb : b.length ≤ 1)
    (hc : c.length ≤ 2) (he : e.length ≤ 1) : (a ++ b ++ c ++ e).length ≤ 5 := by
  simp only [List.length_append]
  omega

theorem flowStep_len (retry : Bool) (fr : FlowRes) (tr : List Attempt)
    (next : Unit → ArcStep × List Attempt) (n : ℕ) (htr : tr.length ≤ n)
    (hnext : (next ()).2.length ≤ n) : (flowStep retry fr tr next).2.length ≤ n := by
  unfold flowStep
  cases fr <;> first | exact htr | exact hnext

theorem ite_len (c : Prop) [inst : Decidable c] (x y : ArcStep × List Attempt) (n : ℕ)
    (hx : x.2.length ≤ n) (hy : y.2.length ≤ n) : (if c then x else y).2.length ≤ n := by
  split
  · exact hx
  · exact hy

theorem len_le5 (a : List Attempt) (h : a.length ≤ 1) : a.length ≤ 5 := by omega

set_option maxHeartbeats 3200000 in
theorem arcSwapOnce_len (env : ArcEnv) (d : ArcDraws) (o : ArcOutcomes) (retry : Bool) :
    (arcSwapOnce env d o retry).2.length ≤ 5 := by
  unfold arcSwapOnce
  repeat' split
  all_goals
    first
    | exact len_le5 _ (defi_branch_len _ _ _ _)
    | exact ite_len _ _ _ _ (len_le5 _ (defi_branch_len _ _ _ _))
        (len_le5 _ (defi_branch_len _ _ _ _))
    | exact ite_len _ _ _ _ (len_le5 _ (defi_branch_len _ _ _ _))
        (ite_len _ _ _ _ (len_le5 _ (defi_branch_len _ _ _ _))
          (flowStep_len _ _ _ _ _
            (len_comp2 _ _ (defi_branch_len _ _ _ _) (arcCurveMain_len _ _ _ _ _ _ _ _))
            (flowStep_len _ _ _ _ _
              (len_comp3 _ _ _ (defi_branch_len _ _ _ _) (arcCurveMain_len _ _ _ _ _ _ _ _)
                (arcUniversal_len _ _ _ _ _ _ _))
              (flowStep_len _ _ _ _ _
                (len_comp4 _ _ _ _ (defi_branch_len _ _ _ _)
                  (arcCurveMain_len _ _ _ _ _ _ _ _)
                  (arcUniversal_len _ _ _ _ _ _ _) (arcFallback_len _ _ _ _ _ _))
                (len_comp4 _ _ _ _ (defi_branch_len _ _ _ _)
                  (arcCurveMain_len _ _ _ _ _ _ _ _)
                  (arcUniversal_len _ _ _ _ _ _ _) (arcFallback_len _ _ _ _ _ _))))))
    | simp

theorem done_ne (b : Bool) (tr : List Attempt) :
    ((ArcStep.done b, tr) : ArcStep × List Attempt).1 ≠ ArcStep.rerollReq := by simp

theorem flowStep_no_reroll (fr : FlowRes) (tr : List Attempt)
    (next : Unit → ArcStep × List Attempt) (hnext : (next ()).1 ≠ ArcStep.rerollReq) :
    (flowStep true fr tr next).1 ≠ ArcStep.rerollReq := by
  unfold flowStep
  cases fr <;> first | exact hnext | simp [stepOfReroll]

theorem ite_no_reroll (c : Prop) [inst : Decidable c] (x y : ArcStep × List Attempt)
    (hx : x.1 ≠ ArcStep.rerollReq) (hy : y.1 ≠ ArcStep.rerollReq) :
    (if c then x else y).1 ≠ ArcStep.rerollReq := by
  split
  · exact hx
  · exact hy

set_option maxHeartbeats 3200000 in
theorem arcSwapOnce_retry_done (env : ArcEnv) (d : ArcDraws) (o : ArcOutcomes) :
    (arcSwapOnce env d o true).1 ≠ ArcStep.rerollReq := by
  unfold arcSwapOnce
  repeat' split
  all_goals
    first
    | exact done_ne _ _
    | exact ite_no_reroll _ _ _ (done_ne _ _) (done_ne _ _)
    | exact ite_no_reroll _ _ _ (done_ne _ _)
        (ite_no_reroll _ _ _ (done_ne _ _)
          (flowStep_no_reroll _ _ _
            (flowStep_no_reroll _ _ _
              (flowStep_no_reroll _ _ _ (done_ne _ _)))))
    | simp

theorem _execute_arc_swap_len (env : ArcEnv) (d1 : ArcDraws) (o1 : ArcOutcomes)
    (d2 : ArcDraws) (o2 : ArcOutcomes) :
    (_execute_arc_swap env d1 o1 d2 o2).2.length ≤ 10 := by
  have h1 := arcSwapOnce_len env d1 o1 false
  have h2 := arcSwapOnce_len env d2 o2 true
  unfold _execute_arc_swap
  repeat' split
  all_goals simp_all
  all_goals omega

/-! ## A concrete repeating run of `_execute_arc_swap` -/

theorem honce_test : ∀ retry, arcSwapOnce arcEnvRepeat arcDrawsRepeat arcOutcomesAllRevert retry
    = (stepOfReroll retry,
       [⟨.curve, warcForward, .reverted⟩,
        ⟨.universal, ⟨["0xWUSDC", "0xWUSDC"], []⟩, .reverted⟩,
        ⟨.curve, warcForward, .reverted⟩]) := by
  have hpyA : pyInt ((10000000000000000 : ℚ)) = 10000000000000000 := by
    norm_num [pyInt]
  have hempty : (_get_arc_route_templates arcTokensWarc).isEmpty = false := by decide
  have hmap : (_get_arc_route_templates arcTokensWarc).map (fun e => e.1) = ["WUSDC", "wARC"] := by
    decide
  have hsel : arcCurveSel arcEnvRepeat arcDrawsRepeat true "USDC" 10000000000000000 true
      = ("USDC", some ("wARC", warcForward)) := by decide
  have hmain : arcCurveMain arcEnvRepeat arcOutcomesAllRevert true "USDC"
      (some ("wARC", warcForward)) (1/100) 10000000000000000 ["WUSDC", "wARC"]
      = (.next, 9500000000000000, [⟨.curve, warcForward, .reverted⟩]) := by
    have hpy : pyInt ((950000000000000000 : ℚ) * (1 / 100)) = 9500000000000000 := by
      norm_num [pyInt]
    have hminu : List.lookup "USDC" min_amount_tokens = none := by decide
    have hca : curveAmount arcEnvRepeat "USDC" 950000000000000000 (1/100) true
        = 9500000000000000 := by
      have hpy2 : pyInt ((9500000000000000 : ℚ)) = 9500000000000000 := by
        norm_num [pyInt]
      norm_num [curveAmount, apply_min_amount, hpy, hpy2, hminu]
    norm_num [arcCurveMain, hca, max_def, lookupD,
      show arcEnvRepeat.native_balance = 1000000000000000000 from rfl,
      show arcEnvRepeat.nonzero = [] from rfl,
      show arcOutcomesAllRevert.curve_main = Submit.reverted from rfl]
  have huniv : arcUniversal arcEnvRepeat arcDrawsRepeat arcOutcomesAllRevert true "USDC"
      9500000000000000 "0xWUSDC"
      = (.next, [⟨.universal, ⟨["0xWUSDC", "0xWUSDC"], []⟩, .reverted⟩]) := by decide
  have hfb : arcFallback arcEnvRepeat arcDrawsRepeat arcOutcomesAllRevert true "USDC" (1/100)
      = (.reroll, [⟨.curve, warcForward, .reverted⟩]) := by
    have hpy : pyInt ((950000000000000000 : ℚ) * (1 / 100)) = 9500000000000000 := by
      norm_num [pyInt]
    have hminu : List.lookup "USDC" min_amount_tokens = none := by decide
    have hfil : (["WUSDC", "wARC"].filter (fun t => !decide (t ∈ curve_blacklist)))
        = ["WUSDC", "wARC"] := by decide
    have hch : choiceD ["WUSDC", "wARC"] 1 = "wARC" := by decide
    have hlk : (_get_arc_route_templates arcTokensWarc).lookup "wARC"
        = some (warcForward,
            _build_arc_route [arc_native_placeholder, "0xWUSDC", "0xWUSDC", pool_warc, "0xwARC"]
              [[0, 0, 8, 0], [0, 1, 1, 20]] true) := by decide
    have hca : curveAmount arcEnvRepeat "USDC" 950000000000000000 (1/100) true
        = 9500000000000000 := by
      have hpy2 : pyInt ((9500000000000000 : ℚ)) = 9500000000000000 := by
        norm_num [pyInt]
      norm_num [curveAmount, apply_min_amount, hpy, hpy2, hminu]
    norm_num [arcFallback, hca, hfil, hch, hlk, max_def, lookupD,
      show arcEnvRepeat.tokens = arcTokensWarc from rfl,
      show arcEnvRepeat.curve_router = true from rfl,
      show arcEnvRepeat.native_balance = 1000000000000000000 from rfl,
      show arcEnvRepeat.nonzero = [] from rfl,
      show arcDrawsRepeat.fb_target_idx = 1 from rfl,
      show arcOutcomesAllRevert.curve_fb = Submit.reverted from rfl,
      hmap]
  intro retry
  unfold arcSwapOnce
  norm_num [hempty, hmap, hsel, hmain, huniv, hfb, hpyA, flowStep,
    show arcEnvRepeat.router_ok = true from rfl,
    show arcEnvRepeat.wallet_connected = true from rfl,
    show arcEnvRepeat.tokens_nonempty = true from rfl,
    show arcEnvRepeat.tokens = arcTokensWarc from rfl,
    show arcTokensWarc.WUSDC = some "0xWUSDC" from rfl,
    show arcTokensWarc.USDC = none from rfl,
    show arcEnvRepeat.decimals "0x0" = 18 from rfl,
    show arcEnvRepeat.defi_router = false from rfl,
    show arcEnvRepeat.curve_router = true from rfl,
    show arcEnvRepeat.native_balance = 1000000000000000000 from rfl,
    show arcEnvRepeat.native_symbol = "USDC" from rfl,
    show arcDrawsRepeat.native_roll = true from rfl,
    show arcDrawsRepeat.swap_u = 1 from rfl]

theorem c7x_exec : _execute_arc_swap arcEnvRepeat arcDrawsRepeat arcOutcomesAllRevert
    arcDrawsRepeat arcOutcomesAllRevert
    = (false, [⟨.curve, warcForward, .reverted⟩,
               ⟨.universal, ⟨["0xWUSDC", "0xWUSDC"], []⟩, .reverted⟩,
               ⟨.curve, warcForward, .reverted⟩,
               ⟨.curve, warcForward, .reverted⟩,
               ⟨.universal, ⟨["0xWUSDC", "0xWUSDC"], []⟩, .reverted⟩,
               ⟨.curve, warcForward, .reverted⟩]) := by
  unfold _execute_arc_swap
  rw [honce_test false, honce_test true]
  simp [stepOfReroll]

/-! ## Claim C1: amount bounds of `choose_amount` -/

/-- Counterexample to claim C1 as stated: with the USDT preset
(min 30, max 80), 6 decimals and a balance of 10 raw units, the
percent-of-balance cap `int(balance*0.95) = 9` is far below
`to_units(min) = 30_000_000`, yet `choose_amount` does not return the
none/0 "insufficient funds" outcome: it returns 9, an amount below
`to_units(min)` (the clamp `min(amount_raw, spend_cap)` silently caps to
the spend cap instead of bailing out). -/
theorem c1_counterexample :
    choose_amount "USDT" 6 10 0 50 = 9
    ∧ ¬((9 : ℤ) = 0 ∨ pyInt ((30 : ℚ) * 10 ^ 6) ≤ 9) := by
  constructor
  · norm_num [choose_amount, amount_presets, decimalDigits, roundTo, roundHalfEven, pyInt,
      List.lookup]
  · norm_num [pyInt]

/-- Claim C1, amended: for a configured symbol and a positive balance,
`choose_amount` never exceeds the balance; it returns 0 only when the
spend cap `int(balance*0.95)` is non-positive; otherwise the result lies
between `min(to_units(preset.min), spend_cap)` and
`min(max(to_units(preset.min), to_units(preset.max)), spend_cap)` — the
source clamps into the preset range and then to the spend cap, rather
than returning the none outcome when the cap is below `to_units(min)`. -/
theorem c1_amended :
    ∀ (symbol : String) (preset : AmountPreset) (decimals : ℕ) (balance_raw : ℤ)
      (precIdx : ℕ) (u : ℚ),
      amount_presets.lookup symbol = some preset →
      0 < balance_raw →
      0 < pyInt (preset.min * 10 ^ decimals) →
      choose_amount symbol decimals balance_raw precIdx u ≤ balance_raw
      ∧ (pyInt ((balance_raw : ℚ) * (95/100)) ≤ 0 →
          choose_amount symbol decimals balance_raw precIdx u = 0)
      ∧ (0 < pyInt ((balance_raw : ℚ) * (95/100)) →
          min (pyInt (preset.min * 10 ^ decimals)) (pyInt ((balance_raw : ℚ) * (95/100)))
            ≤ choose_amount symbol decimals balance_raw precIdx u
          ∧ choose_amount symbol decimals balance_raw precIdx u
            ≤ min (max (pyInt (preset.min * 10 ^ decimals)) (pyInt (preset.max * 10 ^ decimals)))
                (pyInt ((balance_raw : ℚ) * (95/100)))) := by
  intro sym p dec b i u hlook hb hmin
  have hcap : pyInt ((b : ℚ) * (95/100)) ≤ b := spend_cap_le b hb.le
  unfold choose_amount
  rw [hlook]
  dsimp only
  rw [if_neg (not_le.2 hb)]
  generalize pyInt (roundTo u (decimalDigits (p.precisions.getD i 1)) * 10 ^ dec) = A
  generalize hM : pyInt (p.min * 10 ^ dec) = M at hmin ⊢
  generalize hX : pyInt (p.max * 10 ^ dec) = X
  generalize hS : pyInt ((b : ℚ) * (95/100)) = S at hcap ⊢
  split
  · refine ⟨by omega, fun _ => rfl, fun hpos => absurd hpos (by omega)⟩
  · rename_i hs
    split
    · refine ⟨by omega, fun hle => absurd hle (by omega), fun _ => ⟨by omega, by omega⟩⟩
    · rename_i hguard
      exfalso
      omega

/-- Witness for `c1_amended` at the USDT preset, 6 decimals, balance
`10^9`. -/
theorem c1_amended_witness :
    (0 : ℤ) < 10 ^ 9 ∧ choose_amount "USDT" 6 (10 ^ 9) 0 50 ≤ 10 ^ 9 :=
  ⟨by decide,
   (c1_amended "USDT" ⟨30, 80, [1, 1/10, 1/100]⟩ 6 (10 ^ 9) 0 50 rfl (by decide)
      (by show (0 : ℤ) < pyInt (30 * 10 ^ 6); norm_num [pyInt])).1⟩

/-! ## Claim C2: approvals grant the exact amount, not unlimited -/

/-- Counterexample to claim C2: with allowance 0 below a requested amount
of 1000, `approve_token` submits an approval for exactly 1000, which is
not the maximum representable value `2^256 - 1`. -/
theorem c2_counterexample :
    approve_token "0xToken" "0xRouter" 1000 0 .success
      = (true, [⟨"0xRouter", 1000⟩])
    ∧ (1000 : ℕ) ≠ 2 ^ 256 - 1 := by
  exact ⟨by decide, by decide⟩

/-- Claim C2, amended: whenever the current allowance is below the
requested amount (and the token is not the native placeholder),
`approve_token` submits exactly one approval — for the exact requested
amount, not for an unlimited value — and returns success iff the
approval receipt is successful. -/
theorem c2_amended :
    ∀ (token router : Addr) (amount allowance : ℕ) (receipt : Submit),
      token ≠ zero_address → allowance < amount →
      (approve_token token router amount allowance receipt).2 = [⟨router, amount⟩]
      ∧ ((approve_token token router amount allowance receipt).1 = true ↔ receipt = .success) := by
  intro token router amount allowance receipt h1 h2
  unfold approve_token
  rw [if_neg h1, if_neg (not_le.2 h2)]
  cases receipt <;> simp

/-- Witness for `c2_amended` at a non-native token, amount 1000,
allowance 0, successful receipt. -/
theorem c2_amended_witness :
    (approve_token "0xToken" "0xRouter" 1000 0 Submit.success).2 = [⟨"0xRouter", 1000⟩]
    ∧ ((approve_token "0xToken" "0xRouter" 1000 0 Submit.success).1 = true
        ↔ Submit.success = Submit.success) :=
  c2_amended "0xToken" "0xRouter" 1000 0 Submit.success (by decide) (by decide)

/-! ## Claim C3: the scheduler cycle never raises -/

/-- Claim C3: for every engine state whose `wallet_stats` has an entry for
the wallet (the engine registers every wallet before cycling),
`execute_operation_cycle` returns a boolean for every draw, executor
outcome and service availability — and an executor exception or a missing
service yields `.ok false`, never a propagated exception. -/
theorem c3_cycle_never_raises :
    ∀ (s : EngineState) (inp : CycleInput),
      (inp.wallet_found = true → (s.wallet_stats.lookup inp.wallet_name).isSome) →
      (∃ b, (execute_operation_cycle s inp).1 = .ok b)
      ∧ ((inp.exec_result = .exn ∨ inp.service_available = false) →
          (execute_operation_cycle s inp).1 = .ok false) := by
  intro s inp h
  unfold execute_operation_cycle
  cases hw : inp.wallet_found with
  | false => simp
  | true =>
    simp only [Bool.not_true, Bool.false_eq_true, if_false]
    cases hl : List.lookup inp.wallet_name s.wallet_stats with
    | none =>
      have := h hw
      rw [hl] at this
      simp at this
    | some st =>
      dsimp only
      constructor
      · cases hd : dispatchOperation inp with
        | ok b => cases b <;> simp
        | exn => simp
      · intro hcase
        have hd : dispatchOperation inp = .ok false ∨ dispatchOperation inp = .exn := by
          unfold dispatchOperation
          rcases hcase with hx | hx <;> cases hop : inp.op <;>
            cases hs : inp.service_available <;> simp_all <;>
            cases hr : inp.exec_result <;> simp_all
        rcases hd with hd | hd <;> rw [hd] <;> simp

/-- Witness for `c3_cycle_never_raises` on a registered wallet with a
raising transfer executor. -/
theorem c3_witness :
    ∃ b, (execute_operation_cycle ⟨⟨0, 0, 0⟩, [("w1", ⟨0, 0, 0⟩)], ⟨50, 30, 20, 0⟩⟩
      ⟨true, "w1", "net", .transfer, true, .exn⟩).1 = .ok b :=
  (c3_cycle_never_raises ⟨⟨0, 0, 0⟩, [("w1", ⟨0, 0, 0⟩)], ⟨50, 30, 20, 0⟩⟩
    ⟨true, "w1", "net", .transfer, true, .exn⟩ (by decide)).1

/-! ## Claim C4: stats conservation -/

/-- One scheduler cycle preserves the conservation invariant. -/
theorem cycle_preserves_inv (s : EngineState) (inp : CycleInput) (h : StatsInv s) :
    StatsInv (execute_operation_cycle s inp).2 := by
  obtain ⟨hg, hw⟩ := h
  unfold execute_operation_cycle
  cases hfound : inp.wallet_found with
  | false => exact ⟨hg, hw⟩
  | true =>
    simp only [Bool.not_true, Bool.false_eq_true, if_false]
    cases hl : List.lookup inp.wallet_name s.wallet_stats with
    | none =>
      dsimp only
      refine ⟨?_, hw⟩
      unfold statsOK bumpTotal bumpFail at *
      dsimp
      omega
    | some st =>
      dsimp only
      cases hd : dispatchOperation inp with
      | ok b =>
        dsimp only
        cases b
        · rw [if_neg (by decide : ¬(false = true))]
          dsimp only
          refine ⟨?_, ?_⟩
          · unfold statsOK bumpTotal bumpFail at *
            dsimp
            omega
          · dsimp only
            rw [updWallet_comp]
            refine updWallet_pres _ _ _ ?_ hw
            intro u hu
            unfold statsOK bumpTotal bumpFail at *
            dsimp
            omega
        · rw [if_pos rfl]
          dsimp only
          refine ⟨?_, ?_⟩
          · unfold statsOK bumpTotal bumpSucc at *
            dsimp
            omega
          · dsimp only
            rw [updWallet_comp]
            refine updWallet_pres _ _ _ ?_ hw
            intro u hu
            unfold statsOK bumpTotal bumpSucc at *
            dsimp
            omega
      | exn =>
        dsimp only
        refine ⟨?_, ?_⟩
        · unfold statsOK bumpTotal bumpFail at *
          dsimp
          omega
        · dsimp only
          rw [updWallet_comp]
          refine updWallet_pres _ _ _ ?_ hw
          intro u hu
          unfold statsOK bumpTotal bumpFail at *
          dsimp
          omega

/-- Claim C4, amended: along every sequence of `execute_operation_cycle`
cycles, `succeeded + failed = total` holds at every observation point,
globally and for every per-wallet entry.  (The companion entry point
`run_single_operation` does not share the invariant — see
`c4_counterexample`.) -/
theorem c4_conservation :
    ∀ (s : EngineState) (inps : List CycleInput),
      StatsInv s → StatsInv (runCycles s inps) := by
  intro s inps
  induction inps generalizing s with
  | nil => intro h; exact h
  | cons a l ih =>
    intro h
    exact ih _ (cycle_preserves_inv s a h)

/-- Witness for `c4_conservation`: two cycles (an executor exception and
a success) from a conserving state. -/
theorem c4_conservation_witness :
    StatsInv (runCycles ⟨⟨0, 0, 0⟩, [("w1", ⟨0, 0, 0⟩)], ⟨50, 30, 20, 0⟩⟩
      [⟨true, "w1", "net", .transfer, true, .exn⟩,
       ⟨true, "w1", "net", .swap, true, .ok true⟩]) :=
  c4_conservation ⟨⟨0, 0, 0⟩, [("w1", ⟨0, 0, 0⟩)], ⟨50, 30, 20, 0⟩⟩
    [⟨true, "w1", "net", .transfer, true, .exn⟩,
     ⟨true, "w1", "net", .swap, true, .ok true⟩]
    ⟨by simp [statsOK], by simp [statsOK]⟩

/-- Counterexample to claim C4 as stated: `run_single_operation` bumps
`total` only after dispatch returns, so an executor exception increments
the failed counter without ever incrementing `total`, leaving the global
counters at `succeeded + failed = 1 ≠ 0 = total`. -/
theorem c4_counterexample :
    (run_single_operation
        ⟨⟨0, 0, 0⟩, [("w1", ⟨0, 0, 0⟩)], ⟨50, 30, 20, 0⟩⟩
        ⟨true, "w1", "net", .transfer, true, .exn⟩).2.stats = ⟨0, 0, 1⟩
    ∧ ¬ statsOK ⟨0, 0, 1⟩ := by
  constructor
  · decide
  · unfold statsOK
    decide

/-! ## Claim C5: default weights for unrecognized networks -/

/-- Counterexample to claim C5: the unrecognized network "foo" gets the
default table `{transfer 50, swap 30, subscribe_stake 20, lend_borrow 0}`,
whose lend/borrow weight is zero — not a balanced four-way table in which
every action kind is positive. -/
theorem c5_counterexample :
    is_pharos_network "foo" = false ∧ is_rise_network "foo" = false
    ∧ is_opn_network "foo" = false ∧ is_arc_network "foo" = false
    ∧ set_network_operation_weights "foo" = ⟨50, 30, 20, 0⟩
    ∧ ¬(0 < (set_network_operation_weights "foo").lend_borrow) := by
  refine ⟨by decide, by decide, by decide, by decide, by decide, by decide⟩

/-- Claim C5, amended: every network name outside the four recognized
classes gets the fixed default table `⟨50, 30, 20, 0⟩`: transfer, swap
and subscribe-or-stake carry positive weight, lend-or-borrow carries
weight zero (a three-way default, not a balanced four-way one). -/
theorem c5_amended :
    ∀ (n : String),
      is_pharos_network (normalize_network_name n) = false →
      is_rise_network (normalize_network_name n) = false →
      is_opn_network (normalize_network_name n) = false →
      is_arc_network (normalize_network_name n) = false →
      set_network_operation_weights n = ⟨50, 30, 20, 0⟩
      ∧ 0 < (set_network_operation_weights n).transfer
      ∧ 0 < (set_network_operation_weights n).swap
      ∧ 0 < (set_network_operation_weights n).subscribe_stake
      ∧ (set_network_operation_weights n).lend_borrow = 0 := by
  intro n h1 h2 h3 h4
  simp [set_network_operation_weights, h1, h2, h3, h4]

/-- Witness for `c5_amended` at the unrecognized name "foo". -/
theorem c5_amended_witness :
    set_network_operation_weights "foo" = ⟨50, 30, 20, 0⟩
    ∧ 0 < (set_network_operation_weights "foo").transfer
    ∧ 0 < (set_network_operation_weights "foo").swap
    ∧ 0 < (set_network_operation_weights "foo").subscribe_stake
    ∧ (set_network_operation_weights "foo").lend_borrow = 0 :=
  c5_amended "foo" (by decide) (by decide) (by decide) (by decide)

/-! ## Claim C6: reverse routes are independently defined -/

/-- Counterexample to claim C6: the wARC template's reverse route in the
template table is exactly the naive reversal of its unpadded forward
route array and forward parameter rows. -/
theorem c6_counterexample :
    ((_get_arc_route_templates arcTokensFull).lookup "wARC").map (fun p => p.2)
      = some (naiveReverseSpec
          [arc_native_placeholder, "0xWUSDC", "0xWUSDC", pool_warc, "0xwARC"]
          [[0, 0, 8, 0], [0, 1, 1, 20]]) := by
  decide

/-- Claim C6, amended: `_build_arc_route` with `reverse=True` IS the naive
reversal (whenever no sentinel entries and no all-zero parameter rows are
present, it equals reversing the unpadded forward arrays and padding), and
every template except `rUSDC` derives its reverse that way; only `rUSDC`
carries an independently written reverse, which differs from the naive
reversal of its forward arrays. -/
theorem c6_reverse_routes :
    (∀ (r : List Addr) (p : List (List ℤ)),
        zero_address ∉ r →
        (∀ row ∈ p, row.any (fun v => v ≠ 0) = true) →
        _build_arc_route r p true = naiveReverseSpec r p)
    ∧ (∀ (t : ArcTokens) (w ru : Addr),
        t.WUSDC = some w → t.rUSDC = some ru →
        ∃ pr, (_get_arc_route_templates t).lookup "rUSDC" = some pr
          ∧ pr.2 ≠ naiveReverseSpec [arc_native_placeholder, w, w, pool_rusdc, ru]
              [[0, 0, 8, 0], [0, 1, 1, 10]]) := by
  constructor
  · intro r p hz hrow
    unfold _build_arc_route naiveReverseSpec
    rw [if_pos rfl]
    have h1 : r.filter (fun addr => decide (addr ≠ zero_address)) = r := by
      apply List.filter_eq_self.mpr
      intro a ha
      simp only [ne_eq, decide_eq_true_eq]
      intro h
      exact hz (h ▸ ha)
    have h2 : p.filter (fun row => row.any (fun v => decide (v ≠ 0))) = p :=
      List.filter_eq_self.mpr hrow
    dsimp only
    rw [h1, h2]
    simp [List.length_reverse]
  · intro t w ru hw hru
    unfold _get_arc_route_templates
    rw [hw, hru]
    dsimp only
    simp only [List.cons_append, List.nil_append, List.lookup,
      show ("rUSDC" == "WUSDC") = false from by decide,
      show ("rUSDC" == "rUSDC") = true from by decide]
    refine ⟨_, rfl, ?_⟩
    intro heq
    have h2 := congrArg RouteSpec.swap_params heq
    simp [_build_arc_route, naiveReverseSpec] at h2

/-- Witness for `c6_reverse_routes`: the builder-reverse of a 2-hop route
equals its naive reversal, and the `rUSDC` template of a fully configured
token table carries a non-naive reverse. -/
theorem c6_reverse_routes_witness :
    _build_arc_route ["0xA", "0xB"] [[1, 2, 3, 4]] true
      = naiveReverseSpec ["0xA", "0xB"] [[1, 2, 3, 4]]
    ∧ ∃ pr, (_get_arc_route_templates arcTokensFull).lookup "rUSDC" = some pr
        ∧ pr.2 ≠ naiveReverseSpec
            [arc_native_placeholder, "0xWUSDC", "0xWUSDC", pool_rusdc, "0xrUSDC"]
            [[0, 0, 8, 0], [0, 1, 1, 10]] :=
  ⟨c6_reverse_routes.1 ["0xA", "0xB"] [[1, 2, 3, 4]] (by decide) (by decide),
   c6_reverse_routes.2 arcTokensFull "0xWUSDC" "0xrUSDC" rfl rfl⟩

/-! ## Claim C7: bounded retries, no repeated route -/

/-- Claim C7, amended: retries of `_execute_arc_swap` are bounded — the
trace of submitted swap attempts of a full invocation (initial pass plus
at most one `arc_reroll` pass) never exceeds 10 attempts, and the
rerolled pass always terminates with a boolean (its own reroll sites
return `False` under `_retry=True`, so there is no unbounded recursion).
The no-repeat half of the claim is false: nothing records failed
router/route combinations, and a rerolled pass can re-attempt the same
route that already failed (see the counterexample). -/
theorem c7_amended :
    (∀ (env : ArcEnv) (d1 : ArcDraws) (o1 : ArcOutcomes) (d2 : ArcDraws) (o2 : ArcOutcomes),
        (_execute_arc_swap env d1 o1 d2 o2).2.length ≤ 10)
    ∧ (∀ (env : ArcEnv) (d : ArcDraws) (o : ArcOutcomes),
        ∃ b, (arcSwapOnce env d o true).1 = ArcStep.done b) := by
  refine ⟨fun env d1 o1 d2 o2 => _execute_arc_swap_len env d1 o1 d2 o2,
    fun env d o => ?_⟩
  have h := arcSwapOnce_retry_done env d o
  cases hs : (arcSwapOnce env d o true).1 with
  | done b => exact ⟨b, rfl⟩
  | rerollReq => exact absurd hs h

/-- Counterexample to claim C7's no-repeat half: with 1 native unit, the
wARC/WUSDC template table and every submission reverting, the invocation
attempts the forward wARC Curve route, the Universal wrap, and the same
wARC Curve route again in the fallback — then rerolls and repeats all
three, re-attempting a router/route combination that already failed in
the same invocation. -/
theorem c7_counterexample :
    hasFailedRepeat (_execute_arc_swap arcEnvRepeat arcDrawsRepeat arcOutcomesAllRevert
      arcDrawsRepeat arcOutcomesAllRevert).2 = true
    ∧ (_execute_arc_swap arcEnvRepeat arcDrawsRepeat arcOutcomesAllRevert
      arcDrawsRepeat arcOutcomesAllRevert).1 = false := by
  rw [c7x_exec]
  exact ⟨by decide, rfl⟩

/-! ## Claim C8: rounding of the drawn amount -/

/-- Counterexample to claim C8: Python `round` is round-half-to-even, not
floor.  `round(0.0015, 3) = 0.002 > 0.0015` (the OPN path's own unit test
asserts this upward result), and in `choose_amount` with a uniform draw
of 30.6 and precision 1 the rounded amount 31 exceeds the draw, giving
31_000_000 raw units from a draw worth 30_600_000. -/
theorem c8_counterexample :
    ¬(roundTo (3/2000) 3 ≤ 3/2000)
    ∧ _pick_amount (3 * 10 ^ 16) 18 5 3 none = 2000000000000000
    ∧ choose_amount "USDT" 6 (10 ^ 12) 0 (306/10) = 31000000
    ∧ ¬(roundTo (306/10) 0 ≤ 306/10) := by
  refine ⟨?_, ?_, ?_, ?_⟩
  · norm_num [roundTo, roundHalfEven]
  · norm_num [_pick_amount, roundTo, roundHalfEven, pyInt]
  · norm_num [choose_amount, amount_presets, decimalDigits, roundTo, roundHalfEven, pyInt,
      List.lookup, List.range_succ, List.find?]
  · norm_num [roundTo, roundHalfEven]

/-- Claim C8, amended: the draw is rounded to the nearest precision step
(ties to even) — within half a step of the draw in either direction, not
always down — and balance safety comes from the later clamps instead:
`choose_amount` never exceeds the balance, and `_pick_amount` never
exceeds its spend cap. -/
theorem c8_amended :
    (∀ (x : ℚ) (d : ℕ), |roundTo x d - x| ≤ 1 / (2 * 10 ^ d))
    ∧ (∀ (symbol : String) (decimals : ℕ) (balance_raw : ℤ) (precIdx : ℕ) (u : ℚ),
        0 ≤ balance_raw → choose_amount symbol decimals balance_raw precIdx u ≤ balance_raw)
    ∧ (∀ (balance_raw : ℤ) (decimals : ℕ) (pct : ℚ) (digits : ℕ) (max_spend : Option ℤ),
        _pick_amount balance_raw decimals pct digits max_spend ≤ max_spend.getD balance_raw) := by
  refine ⟨roundTo_near, ?_, ?_⟩
  · intro sym dec b i u hb
    unfold choose_amount
    cases hlook : amount_presets.lookup sym with
    | none => simpa using hb
    | some p =>
      dsimp only
      split
      · exact hb
      · have hcap : pyInt ((b : ℚ) * (95/100)) ≤ b := spend_cap_le b hb
        generalize pyInt (roundTo u (decimalDigits (p.precisions.getD i 1)) * 10 ^ dec) = A
        generalize pyInt (p.min * 10 ^ dec) = M
        generalize pyInt (p.max * 10 ^ dec) = X
        generalize hS : pyInt ((b : ℚ) * (95/100)) = S at hcap
        split
        · exact hb
        · split <;> omega
  · intro b dec pct dg ms
    unfold _pick_amount
    dsimp only
    generalize pyInt (roundTo ((b : ℚ) / 10 ^ dec * pct / 100) dg * 10 ^ dec) = A
    generalize ms.getD b = C
    split <;> omega

/-- Witness for `c8_amended` at a balance of 10 raw units. -/
theorem c8_amended_witness :
    (0 : ℤ) ≤ 10 ∧ choose_amount "USDT" 6 10 0 50 ≤ 10 :=
  ⟨by decide, c8_amended.2.1 "USDT" 6 10 0 50 (by decide)⟩

/-! ## Claim C9: route padding -/

/-- Claim C9: for a 3-hop real route and at most 5 parameter rows, the
forward-padded RouteSpec has exactly 11 address entries — the real route
followed by 8 zero-address sentinels — and a parameter matrix right-padded
with all-zero rows to exactly 5 rows. -/
theorem c9_route_padding :
    ∀ (r : List Addr) (p : List (List ℤ)),
      r.length = 3 → p.length ≤ 5 →
      (_build_arc_route r p false).route.length = 11
      ∧ (_build_arc_route r p false).route.take 3 = r
      ∧ (_build_arc_route r p false).route.drop 3 = List.replicate 8 zero_address
      ∧ (_build_arc_route r p false).swap_params.length = 5
      ∧ (_build_arc_route r p false).swap_params.take p.length = p
      ∧ (_build_arc_route r p false).swap_params.drop p.length
          = List.replicate (5 - p.length) [0, 0, 0, 0] := by
  intro r p hr hp
  unfold _build_arc_route
  rw [if_neg (by decide : ¬(false = true))]
  dsimp only
  have hlenr : (r ++ List.replicate (11 - r.length) zero_address).length = 11 := by
    simp [hr]
  have hlenp : (p ++ List.replicate (5 - p.length) ([0, 0, 0, 0] : List ℤ)).length = 5 := by
    simp
    omega
  rw [List.take_of_length_le (le_of_eq hlenr), List.take_of_length_le (le_of_eq hlenp)]
  refine ⟨hlenr, ?_, ?_, hlenp, ?_, ?_⟩
  · rw [show (3 : ℕ) = r.length from hr.symm, List.take_left]
  · rw [show (3 : ℕ) = r.length from hr.symm, List.drop_left, hr]
  · rw [List.take_left]
  · rw [List.drop_left]

/-- Witness for `c9_route_padding` at a concrete 3-hop route with one
parameter row. -/
theorem c9_route_padding_witness :
    (_build_arc_route ["0xA", "0xB", "0xC"] [[1, 2, 3, 4]] false).route.length = 11
    ∧ (_build_arc_route ["0xA", "0xB", "0xC"] [[1, 2, 3, 4]] false).route.take 3
        = ["0xA", "0xB", "0xC"]
    ∧ (_build_arc_route ["0xA", "0xB", "0xC"] [[1, 2, 3, 4]] false).route.drop 3
        = List.replicate 8 zero_address
    ∧ (_build_arc_route ["0xA", "0xB", "0xC"] [[1, 2, 3, 4]] false).swap_params.length = 5
    ∧ (_build_arc_route ["0xA", "0xB", "0xC"] [[1, 2, 3, 4]] false).swap_params.take 1
        = [[1, 2, 3, 4]]
    ∧ (_build_arc_route ["0xA", "0xB", "0xC"] [[1, 2, 3, 4]] false).swap_params.drop 1
        = List.replicate 4 [0, 0, 0, 0] :=
  c9_route_padding ["0xA", "0xB", "0xC"] [[1, 2, 3, 4]] rfl (by decide)

/-! ## Claim C10: total balance/allowance reads -/

/-- Claim C10: `get_token_balance` and `check_allowance` are total — every
read exception is converted to a returned 0, indistinguishable from a
zero balance or allowance (for the native zero address `check_allowance`
performs no lookup at all and returns the unlimited sentinel before any
read can fail). -/
theorem c10_total_reads :
    ∀ (addr : Addr) (v : ℤ),
      get_token_balance addr (.error ()) (.error ()) = 0
      ∧ get_token_balance addr (.ok v) (.ok v) = v
      ∧ get_token_balance addr (.error ()) (.error ()) = get_token_balance addr (.ok 0) (.ok 0)
      ∧ (addr = zero_address → check_allowance addr (.error ()) = 2 ^ 256 - 1)
      ∧ (addr ≠ zero_address →
          check_allowance addr (.error ()) = 0
          ∧ check_allowance addr (.error ()) = check_allowance addr (.ok 0)) := by
  intro addr v
  by_cases h : addr = zero_address <;>
    simp [get_token_balance, check_allowance, h]

/-- Witness for `c10_total_reads` at a non-native token and the native
placeholder. -/
theorem c10_total_reads_witness :
    get_token_balance "0xT" (.error ()) (.error ()) = 0
    ∧ check_allowance "0xT" (.error ()) = 0
    ∧ check_allowance zero_address (.error ()) = 2 ^ 256 - 1 :=
  ⟨(c10_total_reads "0xT" 7).1,
   ((c10_total_reads "0xT" 7).2.2.2.2 (by decide)).1,
   (c10_total_reads zero_address 7).2.2.2.1 rfl⟩
